import Mathlib

/-!
# Verification of BlendLuxCore exporter glue

A shallow embedding of the name-generation utilities, the object exporter,
the GlossyTranslucent material node export, the halt-condition UI helper and
the render-engine driver of BlendLuxCore, together with proofs of the
behavioural properties claimed for them.

Python strings are embedded as `List Char`; Python integers as `Nat`/`Int`;
wall-clock timestamps (floats compared only with `-` and `>`/`<=`) as `Int`;
fallible calls as `Except`-valued functions.  External collaborators that are
not part of the sources (pyluxcore, `export/material.py`, `export/light.py`,
`nodes/__init__.py`) are modelled from the spec where a claim depends on
them, and are marked as such in their doc comments.
-/

/-! ## utils/__init__.py : datablocks and luxcore names -/

/-- A Blender datablock as seen by `utils/__init__.py`: a human-readable
`name`, an optional `type` attribute (objects have one, e.g. "MESH"; some
datablocks do not) and the memory address returned by `as_pointer()`. -/
structure Datablock where
  name : List Char
  type : Option (List Char)
  as_pointer : Nat
  deriving DecidableEq

/-- Decimal digit characters of a natural number, most significant first
(fuel-driven embedding of Python `str(n)` for non-negative `n`).
`fuel` bounds the recursion depth; `fuel = n` is always enough. -/
def decAux : Nat → Nat → List Char
  | 0, _ => []
  | fuel + 1, n => if n = 0 then [] else decAux fuel (n / 10) ++ [Nat.digitChar (n % 10)]

/-- Python `str(n)` for a natural number. -/
def decChars (n : Nat) : List Char :=
  if n = 0 then ['0'] else decAux n n

/-- `utils.make_key` (utils/__init__.py:33-38): the decimal string of the
datablock's memory address. -/
def make_key (datablock : Datablock) : List Char :=
  decChars datablock.as_pointer

/-- The character class `[_0-9a-zA-Z]` of the regex in `to_luxcore_name`. -/
def isAllowedChar (c : Char) : Bool :=
  c == '_' || ('0' ≤ c && c ≤ '9') || ('a' ≤ c && c ≤ 'z') || ('A' ≤ c && c ≤ 'Z')

/-- Embedding of `re.sub("[^_0-9a-zA-Z]+", "__", string)`: every maximal run
of characters outside `[_0-9a-zA-Z]` is replaced by `"__"`.  The boolean
argument records whether we are inside such a run. -/
def to_luxcore_nameAux : List Char → Bool → List Char
  | [], _ => []
  | c :: rest, inRun =>
    if isAllowedChar c then c :: to_luxcore_nameAux rest false
    else if inRun then to_luxcore_nameAux rest true
    else '_' :: '_' :: to_luxcore_nameAux rest true

/-- `utils.to_luxcore_name` (utils/__init__.py:24-30). -/
def to_luxcore_name (string : List Char) : List Char :=
  to_luxcore_nameAux string false

/-- Embedding of Python `str.title()` restricted to ASCII words: a letter
following a letter is lowercased, any other letter is uppercased. -/
def titleAux : List Char → Bool → List Char
  | [], _ => []
  | c :: rest, prevAlpha =>
    (if prevAlpha then c.toLower else c.toUpper) :: titleAux rest c.isAlpha

/-- `str.title()`. -/
def title (s : List Char) : List Char :=
  titleAux s false

/-- `utils.get_pretty_name` (utils/__init__.py:53-59): the datablock name,
prefixed with the title-cased `type` attribute when the datablock has one. -/
def get_pretty_name (datablock : Datablock) : List Char :=
  match datablock.type with
  | some t => title t ++ '_' :: datablock.name
  | none => datablock.name

/-- `utils.get_luxcore_name` (utils/__init__.py:62-79). -/
def get_luxcore_name (datablock : Datablock) (is_viewport_render : Bool) : List Char :=
  let key := make_key datablock
  if !is_viewport_render then
    to_luxcore_name (get_pretty_name datablock) ++ '_' :: key
  else
    key

/-! ## ui/halt.py : humanized halt time -/

/-- The two `divmod` steps of `LUXCORE_RENDER_PT_halt_conditions.draw`
(ui/halt.py:27-28): `m, s = divmod(halt.time, 60)`; `h, m = divmod(m, 60)`.
Returns `(h, m, s)`. -/
def humanize_halt_time (t : Nat) : Nat × Nat × Nat :=
  let ms := (t / 60, t % 60)
  let hm := (ms.1 / 60, ms.1 % 60)
  (hm.1, hm.2, ms.2)

/-! ## nodes/materials/glossytranslucent.py : material export -/

/-- A value of the flat property dictionary built by a node `export`:
either an exported socket value (texture name or literal, kept abstract as a
string) or a Python boolean. -/
inductive DefVal
  | s (v : List Char)
  | b (v : Bool)
  deriving DecidableEq

/-- The state of a `LuxCoreNodeMatGlossyTranslucent` node: its boolean
properties and, for each input socket, the value its `export` call yields
(abstract — the claims only concern which keys appear). -/
structure GlossyTranslucentNode where
  multibounce : Bool
  use_ior : Bool
  use_backface : Bool
  multibounce_bf : Bool
  use_ior_bf : Bool
  use_anisotropy : Bool
  kd : List Char                  -- "Diffuse Color" socket export
  kt : List Char                  -- "Transmission Color"
  ks : List Char                  -- "Specular Color"
  ka : List Char                  -- "Absorption Color"
  d : List Char                   -- "Absorption Depth (nm)"
  ior : List Char                 -- "IOR"
  ks_bf : List Char               -- "BF Specular Color"
  ka_bf : List Char               -- "BF Absorption Color"
  d_bf : List Char                -- "BF Absorption Depth (nm)"
  ior_bf : List Char              -- "BF IOR"
  roughness : List Char           -- "Roughness" socket export
  uroughness : List Char          -- "U-Roughness"
  vroughness : List Char          -- "V-Roughness"
  roughness_bf : List Char        -- backface roughness socket exports
  uroughness_bf : List Char
  vroughness_bf : List Char
  bumpVal : Option (List Char)    -- "Bump" common socket export (none = unlinked)
  opacityVal : Option (List Char) -- "Opacity" common socket export

/-- Modelled from the spec: `Roughness.export` lives in `nodes/__init__.py`,
which is not among the sources; per the spec each node "serializes itself
into a flat property dictionary", and the call site's comment says
"This includes backface roughness".  It writes `uroughness`/`vroughness`
when anisotropy is enabled, else `roughness`, and the `_bf` backface
variants when the node is double sided. -/
def roughnessDefs (n : GlossyTranslucentNode) : List (List Char × DefVal) :=
  (if n.use_anisotropy then
    [("uroughness".data, DefVal.s n.uroughness), ("vroughness".data, DefVal.s n.vroughness)]
  else
    [("roughness".data, DefVal.s n.roughness)]) ++
  (if n.use_backface then
    (if n.use_anisotropy then
      [("uroughness_bf".data, DefVal.s n.uroughness_bf),
       ("vroughness_bf".data, DefVal.s n.vroughness_bf)]
    else
      [("roughness_bf".data, DefVal.s n.roughness_bf)])
  else [])

/-- Modelled from the spec: `export_common_inputs` (in `nodes/__init__.py`,
not among the sources) serializes the common "Bump" and "Opacity" inputs
into the `bumptex` and `transparency` keys when they are connected. -/
def commonDefs (n : GlossyTranslucentNode) : List (List Char × DefVal) :=
  (match n.bumpVal with
   | some v => [("bumptex".data, DefVal.s v)]
   | none => []) ++
  (match n.opacityVal with
   | some v => [("transparency".data, DefVal.s v)]
   | none => [])

/-- `LuxCoreNodeMatGlossyTranslucent.export`
(nodes/materials/glossytranslucent.py:96-127), as the flat property
dictionary it hands to `base_export`.  A Python dict whose keys are only
ever inserted (never overwritten) is embedded as an association list in
insertion order. -/
def exportGlossyTranslucent (n : GlossyTranslucentNode) : List (List Char × DefVal) :=
  let definitions : List (List Char × DefVal) :=
    [("type".data, DefVal.s "glossytranslucent".data),
     ("kd".data, DefVal.s n.kd),
     ("kt".data, DefVal.s n.kt),
     -- Front face (in normal direction)
     ("multibounce".data, DefVal.b n.multibounce),
     ("ks".data, DefVal.s n.ks),
     ("ka".data, DefVal.s n.ka),
     ("d".data, DefVal.s n.d)]
  let definitions :=
    if n.use_ior then definitions ++ [("index".data, DefVal.s n.ior)] else definitions
  let definitions :=
    if n.use_backface then
      definitions ++
        -- Back face (on opposite side of normal)
        [("multibounce_bf".data, DefVal.b n.multibounce_bf),
         ("ks_bf".data, DefVal.s n.ks_bf),
         ("ka_bf".data, DefVal.s n.ka_bf),
         ("d_bf".data, DefVal.s n.d_bf)] ++
        (if n.use_ior_bf then [("index_bf".data, DefVal.s n.ior_bf)] else [])
    else definitions
  -- This includes backface roughness
  let definitions := definitions ++ roughnessDefs n
  definitions ++ commonDefs n

/-- Key membership in a flat property dictionary. -/
def hasKey (k : List Char) (defs : List (List Char × DefVal)) : Bool :=
  defs.any (fun p => p.1 == k)

/-! ## export/blender_object.py : object conversion -/

/-- One `props.Set(pyluxcore.Property(key, value))` call made while
converting an object.  Each constructor carries the pieces from which the
source builds the property key; `SceneProp.key` recovers the literal key
string. -/
inductive SceneProp
  | objMaterial (objName matName : List Char)       -- scene.objects.<n>.material
  | objShape (objName shapeName : List Char)        -- scene.objects.<n>.shape
  | objTransform (objName : List Char) (t : List Int) -- scene.objects.<n>.transformation
  | shapeType (shapeName kind : List Char)          -- scene.shapes.<s>.type
  | shapeSource (shapeName src : List Char)         -- scene.shapes.<s>.source
  | matBlob (tag : Nat)                             -- opaque entry of a material's props
  deriving DecidableEq

/-- The literal property key of a `SceneProp`, as built in
`_define_luxcore_object` and `_handle_pointiness`. -/
def SceneProp.key : SceneProp → List Char
  | .objMaterial n _ => "scene.objects.".data ++ n ++ ".material".data
  | .objShape n _ => "scene.objects.".data ++ n ++ ".shape".data
  | .objTransform n _ => "scene.objects.".data ++ n ++ ".transformation".data
  | .shapeType s _ => "scene.shapes.".data ++ s ++ ".type".data
  | .shapeSource s _ => "scene.shapes.".data ++ s ++ ".source".data
  | .matBlob _ => []

/-- A material sitting in a material slot. -/
structure BMat where
  luxName : List Char       -- luxcore name of the converted material
  mprops : List Nat         -- its property block, kept opaque (tags)
  has_node_tree : Bool      -- mat.luxcore.node_tree is set
  pointiness : Bool         -- find_nodes(node_tree, "LuxCoreNodeTexPointiness") nonempty
  deriving DecidableEq

/-- `utils.ExportedObject` (utils/__init__.py:9-15): `luxcore_names` is the
list of first components of `mesh_definitions`, in order. -/
structure ExportedObject where
  luxcore_names : List (List Char)
  mesh_definitions : List (List Char × Nat)
  deriving DecidableEq

/-- The `ExportedObject.__init__` constructor. -/
def ExportedObject.make (mesh_definitions : List (List Char × Nat)) : ExportedObject :=
  ⟨mesh_definitions.map Prod.fst, mesh_definitions⟩

/-- `utils.ExportedLight` (utils/__init__.py:18-21). -/
structure ExportedLight where
  luxcore_name : List Char
  deriving DecidableEq

/-- What `convert` may return in place of an exported object. -/
inductive ExportedThing
  | o (e : ExportedObject)
  | l (e : ExportedLight)
  deriving DecidableEq

/-- A Blender object as used by `export/blender_object.py` and the
visibility helpers of `utils/__init__.py`. -/
structure BObject where
  db : Datablock                      -- name / type / as_pointer
  hide : Bool                         -- outliner visibility (viewport)
  hide_render : Bool                  -- outliner visibility (final render)
  layers : List Bool
  is_duplicator : Bool
  particle_systems : List Bool        -- use_render_emitter of each system
  material_slots : List (Option BMat)
  enable_motion_blur : Bool           -- obj.luxcore.enable_motion_blur
  hasData : Bool                      -- blender_obj.data is not None
  transform : List Int                -- matrix_to_list(obj.matrix_world, ...), opaque

/-- The scene fields consulted during object export. -/
structure BScene where
  cameraSome : Bool                   -- scene.camera is set
  cameraClip : Option Nat             -- as_pointer of camera.data.luxcore.clipping_plane
  motionBlurEnable : Bool             -- camera.data.luxcore.motion_blur.enable
  objectBlur : Bool                   -- ... .object_blur
  layers : List Bool
  renderLayers : List Bool            -- scene.render.layers.active.layers

/-- Pointwise conjunction of three layer vectors, as the `zip` in
`is_obj_visible` produces it. -/
def zip3and : List Bool → List Bool → List Bool → List Bool
  | a :: as, b :: bs, c :: cs => (a && b && c) :: zip3and as bs cs
  | _, _, _ => []

/-- `utils.is_obj_visible` (utils/__init__.py:300-319).  `context` is the
truthiness of the context argument. -/
def is_obj_visible (obj : BObject) (scene : BScene) (context : Bool) (is_dupli : Bool) : Bool :=
  if is_dupli then
    true
  else
    let hidden_in_outliner := if context then obj.hide else obj.hide_render
    -- Check if object is used as camera clipping plane
    if scene.cameraSome && scene.cameraClip == some obj.db.as_pointer then
      false
    else
      let on_visible_layer := (zip3and obj.layers scene.layers scene.renderLayers).any id
      on_visible_layer && !hidden_in_outliner

/-- `utils.is_duplicator_visible` (utils/__init__.py:322-332). -/
def is_duplicator_visible (obj : BObject) : Bool :=
  obj.particle_systems.any id

/-- `utils.use_obj_motion_blur` (utils/__init__.py:374-384). -/
def use_obj_motion_blur (obj : BObject) (scene : BScene) : Bool :=
  if !scene.cameraSome then
    false
  else
    let object_blur := scene.motionBlurEnable && scene.objectBlur
    object_blur && obj.enable_motion_blur

/-- `utils.use_instancing` (utils/__init__.py:387-398). -/
def use_instancing (obj : BObject) (scene : BScene) (context : Bool) : Bool :=
  if context then true
  else if use_obj_motion_blur obj scene then true
  else false

/-- Modelled from the spec: `material.convert` (export/material.py, not
among the sources) converts a slot material into its luxcore name and
property block, and — per the call site's comment "material.convert
returned the fallback material in this case" — yields the fallback
material when the slot holds no material. -/
def material_convert (mat : Option BMat) : List Char × List SceneProp :=
  match mat with
  | some m => (m.luxName, m.mprops.map SceneProp.matBlob)
  | none => ("__FALLBACK__".data, [])

/-- Modelled from the spec: `material.fallback` (export/material.py, not
among the sources) yields the fallback material used when an object has no
material slot for a mesh part. -/
def material_fallback : List Char × List SceneProp :=
  ("__FALLBACK__".data, [])

/-- `_handle_pointiness` (export/blender_object.py:90-106).  The source
re-assigns `use_pointiness` for every slot whose material has a node tree,
so the last such slot wins; `find_nodes` (utils/node.py, not among the
sources) is abstracted into the material's `pointiness` field.  Returns the
extra shape properties and the (possibly wrapped) shape name. -/
def _handle_pointiness (slots : List (Option BMat)) (luxcore_shape_name : List Char) :
    List SceneProp × List Char :=
  let use_pointiness := slots.foldl
    (fun acc slot =>
      match slot with
      | some m => if m.has_node_tree then m.pointiness else acc
      | none => acc) false
  if use_pointiness then
    let pointiness_shape := luxcore_shape_name ++ "_pointiness".data
    ([SceneProp.shapeType pointiness_shape "pointiness".data,
      SceneProp.shapeSource pointiness_shape luxcore_shape_name], pointiness_shape)
  else
    ([], luxcore_shape_name)

/-- `_define_luxcore_object` (export/blender_object.py:109-119). -/
def _define_luxcore_object (lux_object_name lux_material_name : List Char)
    (obj_transform : Option (List Int)) (blender_obj : BObject) : List SceneProp :=
  -- The "Mesh-" prefix is hardcoded in the LuxCore API
  let luxcore_shape_name := "Mesh-".data ++ lux_object_name
  let hp := _handle_pointiness blender_obj.material_slots luxcore_shape_name
  hp.1 ++
  [SceneProp.objMaterial lux_object_name lux_material_name,
   SceneProp.objShape lux_object_name hp.2] ++
  (match obj_transform with
   | some t => [SceneProp.objTransform lux_object_name t]
   | none => [])

/-- A warning appended to `scene.luxcore.errorlog` during object export;
the formatted message strings are abstracted into constructors. -/
inductive ExpWarning
  | noMaterialInSlot (objName : List Char) (slot : Nat)  -- 'No material attached to slot %d'
  | noMaterialDefined (objName : List Char)              -- 'No material defined'
  | objError (objName : List Char)                       -- 'Object "%s": %s' from the except block
  deriving DecidableEq

/-- The per-mesh-part loop of `convert` (export/blender_object.py:61-79):
for every `(lux_object_name, material_index)` pair one material is chosen
(slot material when the index is in range, fallback otherwise), its props
are Set, and the object block is defined. -/
def convertLoop (obj : BObject) (obj_transform : Option (List Int)) :
    List (List Char × Nat) → List SceneProp × List ExpWarning
  | [] => ([], [])
  | (lux_object_name, material_index) :: rest =>
    let step : List Char × List SceneProp × List ExpWarning :=
      match obj.material_slots.get? material_index with
      | some mat =>
        let mc := material_convert mat
        (mc.1, mc.2,
         if mat.isNone then [ExpWarning.noMaterialInSlot obj.db.name material_index] else [])
      | none =>
        -- The object has no material slots
        (material_fallback.1, material_fallback.2, [ExpWarning.noMaterialDefined obj.db.name])
    let tail := convertLoop obj obj_transform rest
    (step.2.1 ++ _define_luxcore_object lux_object_name step.1 obj_transform obj ++ tail.1,
     step.2.2 ++ tail.2)

/-- The mesh data looked at by `convert` after `to_mesh`. -/
structure MeshData where
  tessfacesCount : Nat
  deriving Inhabited

/-- External collaborators of `convert`, modelled from the spec: the lamp
converter (export/light.py), Blender's `to_mesh`, and the LuxCore scene's
`DefineBlenderMesh` (pyluxcore), which may raise — `defineMeshThrows`
selects that behaviour. -/
structure ConvertExt where
  convert_lamp : BObject → List SceneProp × Option ExportedThing
  to_mesh : BObject → Option MeshData
  defineBlenderMesh : List Char → Option (List Int) → List (List Char × Nat)
  defineMeshThrows : Bool

/-- `convert` (export/blender_object.py:10-87).  Returns the accumulated
props, the exported object (or `none`), and the warnings appended to
`scene.luxcore.errorlog`; the `try`/`except` of the source is embedded by
returning the handler's result (empty props, `none`, error warning) when
`DefineBlenderMesh` raises. -/
def convert (ext : ConvertExt) (blender_obj : BObject) (scene : BScene) (context : Bool)
    (exported_object : Option ExportedObject) (update_mesh : Bool)
    (dupli_suffix : List Char) :
    List SceneProp × Option ExportedThing × List ExpWarning :=
  if !is_obj_visible blender_obj scene context (!dupli_suffix.isEmpty) then
    ([], none, [])
  else if blender_obj.is_duplicator && !is_duplicator_visible blender_obj then
    ([], none, [])
  else if blender_obj.db.type == some "LAMP".data then
    let r := ext.convert_lamp blender_obj
    (r.1, r.2, [])
  else
    -- try:
    let luxcore_name := get_luxcore_name blender_obj.db context ++ dupli_suffix
    if !blender_obj.hasData then
      ([], none, [])
    else
      let transformation := blender_obj.transform
      -- Instancing just means that we transform the object instead of the mesh
      let obj_transform : Option (List Int) :=
        if use_instancing blender_obj scene context || !dupli_suffix.isEmpty then
          some transformation
        else none
      let mesh_transform : Option (List Int) :=
        if use_instancing blender_obj scene context || !dupli_suffix.isEmpty then
          none
        else some transformation
      if update_mesh then
        match ext.to_mesh blender_obj with
        | none =>
          -- "No mesh data after to_mesh()": early return (props still empty)
          ([], none, [])
        | some mesh =>
          if mesh.tessfacesCount == 0 then
            ([], none, [])
          else if ext.defineMeshThrows then
            -- DefineBlenderMesh raised: except branch adds the warning
            ([], none, [ExpWarning.objError blender_obj.db.name])
          else
            let mesh_definitions := ext.defineBlenderMesh luxcore_name mesh_transform
            let lp := convertLoop blender_obj obj_transform mesh_definitions
            (lp.1, some (ExportedThing.o (ExportedObject.make mesh_definitions)), lp.2)
      else
        match exported_object with
        | none =>
          -- `assert exported_object is not None` fires: except branch
          ([], none, [ExpWarning.objError blender_obj.db.name])
        | some eo =>
          let lp := convertLoop blender_obj obj_transform eo.mesh_definitions
          (lp.1, some (ExportedThing.o (ExportedObject.make eo.mesh_definitions)), lp.2)

/-! ## engine/__init__.py : the render driver

`LuxCoreRenderEngine.render`, `view_update_lux` and `view_draw` are embedded
as functions over an explicit engine state, driven by an environment that
supplies the values of every external sample (wall-clock time, `test_break`,
`HasDone`, `halt_condition_met`, exporter changes) and says which external
calls raise.  Timestamps are `Int` (the source only subtracts and compares
them); the several samples taken within one loop iteration are abstracted to
one sample per iteration, indexed by the iteration counter.  The calls each
function makes are recorded as an event trace. -/

/-- Call sites inside `render` at which an external call may raise. -/
inductive RSite
  | start                    -- self._session.Start()
  | fsStop                   -- self._session.Stop() on the filesaver path
  | fastRefresh (k : Nat)    -- utils_render.refresh in fast iteration k
  | updateSession (k : Nat)  -- get_changes/update_session in slow iteration k
  | slowRefresh (k : Nat)    -- utils_render.refresh in slow iteration k
  | finalRefresh             -- the refresh after the main loop
  | stop                     -- self._session.Stop() after the main loop
  deriving DecidableEq

/-- The message of the exception raised at a site (abstracted). -/
def siteMsg : RSite → List Char
  | .start => "Start failed".data
  | .fsStop => "Stop failed".data
  | .fastRefresh _ => "refresh failed".data
  | .updateSession _ => "update failed".data
  | .slowRefresh _ => "refresh failed".data
  | .finalRefresh => "refresh failed".data
  | .stop => "Stop failed".data

/-- Events recorded while `render` runs. -/
inductive REv
  | updateStats (s1 s2 : List Char)    -- self.update_stats(s1, s2)
  | sessionStart                       -- self._session.Start()
  | sessionStop                        -- self._session.Stop()
  | reportInfo                         -- self.report({"INFO"}, ...)
  | reportError (msg : List Char)      -- self.report({"ERROR"}, ...)
  | errorSet (msg : List Char)         -- self.error_set(...)
  | fastIter (now : Int)               -- one fast-phase iteration, sampling time()
  | refreshFast                        -- refresh(draw_film=True) in the fast phase
  | slowIter (now : Int) (entryDone entryBreak : Bool) -- one main-loop iteration
  | sessionUpdate                      -- get_changes + update_session
  | refreshSlow (draw_film : Bool)     -- refresh in the main loop
  | clampComputed                      -- find_suggested_clamp_value printed
  | refreshFinal                       -- refresh(draw_film=True) after the loop
  deriving DecidableEq

/-- The engine fields touched by `render`. -/
structure RState where
  session : Option Unit
  framebuffer : Option Unit
  errorlog : List (List Char)          -- scene.luxcore.errorlog entries
  error : Option (List Char)           -- self.error, set by update()
  deriving DecidableEq

/-- Environment of one `render` call: scene settings, the sampled values of
every external query, and the set of raising call sites.  `fhalt k`,
`ftb k`, `fhasDone k` are the values of `halt_condition_met`, `test_break`
and `HasDone` sampled during fast iteration `k` (similarly `s…` for the
main loop); `ftime`/`stime` are the `time()` samples. -/
structure REnv where
  is_animation : Bool
  use_filesaver : Bool
  use_clamping : Bool                  -- scene.luxcore.config.path.use_clamping
  display_interval : Int               -- scene.luxcore.display.interval
  refresh_interval : Int               -- utils_render.shortest_display_interval(scene)
  startTime : Int                      -- time() stored in `start`
  slowInit : Int                       -- time() stored in last_film_refresh/last_stat_refresh
  ftime : Nat → Int
  fhalt : Nat → Bool
  ftb : Nat → Bool
  fhasDone : Nat → Bool
  stime : Nat → Int
  shalt : Nat → Bool
  stb : Nat → Bool
  shasDone : Nat → Bool
  schanges : Nat → Bool                -- truthiness of exporter.get_changes(scene)
  throws : RSite → Bool
  fastFuel : Nat                       -- iteration bound of the fast loop
  slowFuel : Nat                       -- iteration bound of the main loop

/-- Prepend already-recorded events to the events of a continuation. -/
def withEvs (evs : List REv) :
    Except (List Char × List REv) (α × List REv) →
    Except (List Char × List REv) (α × List REv)
  | .error (m, evs2) => .error (m, evs ++ evs2)
  | .ok (a, evs2) => .ok (a, evs ++ evs2)

/-- The fast-refresh startup loop (engine/__init__.py:85-107).  `done` is
the loop variable; note that the source initializes `last_refresh = 0` and
never updates it, which the embedding reproduces.  `FAST_REFRESH_DURATION`
is the literal 5. -/
def fastLoop (env : REnv) : Nat → Nat → Bool → Except (List Char × List REv) (Bool × List REv)
  | 0, _, done => .ok (done, [])
  | fuel + 1, k, done =>
    if done then .ok (done, [])
    else
      let now := env.ftime k
      let step : Except (List Char × List REv) (Bool × List REv) :=
        if now - 0 > env.refresh_interval then
          if env.throws (.fastRefresh k) then
            .error (siteMsg (.fastRefresh k), [.fastIter now])
          else
            .ok (env.fhalt k || env.ftb k || env.fhasDone k, [.fastIter now, .refreshFast])
        else
          .ok (done, [.fastIter now])
      match step with
      | .error e => .error e
      | .ok (done1, evs1) =>
        if now - env.startTime > 5 then
          -- It's time to switch to the loop with slow refresh
          .ok (done1, evs1)
        else
          -- the responsive-cancel checks: test_break sets done and breaks
          let done2 := done1 || env.ftb k
          withEvs evs1 (fastLoop env fuel (k + 1) done2)

/-- The state of the main refresh loop (engine/__init__.py:110-113). -/
structure SlowSt where
  done : Bool
  lastFilm : Int                        -- last_film_refresh
  lastStat : Int                        -- last_stat_refresh
  clampDone : Bool                      -- computed_optimal_clamp
  deriving DecidableEq

/-- The optimal-clamp step at the end of each main-loop iteration
(engine/__init__.py:137-143); the `time()` it samples is abstracted to the
iteration's timestamp. -/
def clampStep (env : REnv) (now : Int) (st : SlowSt) : SlowSt × List REv :=
  if !st.clampDone && !env.use_clamping && decide (now - env.startTime > 10) then
    ({ st with clampDone := true }, [REv.clampComputed])
  else
    (st, [])

/-- The main refresh loop (engine/__init__.py:115-146).
`stat_refresh_interval` is the literal 1. -/
def slowLoop (env : REnv) : Nat → Nat → SlowSt → Except (List Char × List REv) (SlowSt × List REv)
  | 0, _, st => .ok (st, [])
  | fuel + 1, k, st =>
    if env.stb k || st.done then .ok (st, [])
    else
      let now := env.stime k
      let iterEv := REv.slowIter now st.done (env.stb k)
      let statStep : Except (List Char × List REv) (SlowSt × List REv) :=
        if now - st.lastStat > 1 then
          if env.throws (.updateSession k) then
            .error (siteMsg (.updateSession k), [])
          else
            let time_until_film_refresh := env.display_interval - (now - st.lastFilm)
            let draw_film := decide (time_until_film_refresh ≤ 0) || env.schanges k
            if env.throws (.slowRefresh k) then
              .error (siteMsg (.slowRefresh k), [.sessionUpdate])
            else
              .ok ({ st with
                      done := env.shalt k || env.stb k || env.shasDone k,
                      lastStat := now,
                      lastFilm := if draw_film then now else st.lastFilm },
                   [.sessionUpdate, .refreshSlow draw_film])
        else
          .ok (st, [])
      match statStep with
      | .error (m, evs) => .error (m, iterEv :: evs)
      | .ok (st1, evs1) =>
        let cs := clampStep env now st1
        withEvs (iterEv :: (evs1 ++ cs.2)) (slowLoop env fuel (k + 1) cs.1)

/-- The fast-refresh phase as `render` runs it (engine/__init__.py:83-107):
skipped entirely for animation renders, otherwise the fast loop starting
with `done = False`. -/
def fastPhase (env : REnv) : Except (List Char × List REv) (Bool × List REv) :=
  if env.is_animation then .ok (false, [])
  else fastLoop env env.fastFuel 0 false

/-- The `try` block of `render` (engine/__init__.py:49-155).  An exception
carries its message together with the state and events at the raise
point. -/
def renderBody (env : REnv) (st : RState) :
    Except (List Char × RState × List REv) (RState × List REv) :=
  match st.error with
  | some e =>
    -- re-raise the error from update()
    .error (e, st, [])
  | none =>
    match st.session with
    | none =>
      -- "Export cancelled by user."
      .ok (st, [])
    | some _ =>
      let st1 := { st with framebuffer := some () }
      let evs0 : List REv := [.updateStats "Render".data "Starting session...".data]
      if env.throws .start then
        .error (siteMsg .start, st1, evs0)
      else
        let evs1 := evs0 ++ [REv.sessionStart]
        if env.use_filesaver then
          if env.throws .fsStop then
            .error (siteMsg .fsStop, st1, evs1)
          else
            -- report the output path, then clean up
            .ok ({ st1 with session := none }, evs1 ++ [REv.sessionStop, REv.reportInfo])
        else
          match fastPhase env with
          | .error (m, evsF) => .error (m, st1, evs1 ++ evsF)
          | .ok (done, evsF) =>
            match slowLoop env env.slowFuel 0 ⟨done, env.slowInit, env.slowInit, false⟩ with
            | .error (m, evsS) => .error (m, st1, evs1 ++ evsF ++ evsS)
            | .ok (_, evsS) =>
              let evs2 := evs1 ++ evsF ++ evsS
              if env.throws .finalRefresh then
                .error (siteMsg .finalRefresh, st1, evs2)
              else
                let evs3 := evs2 ++
                  [REv.refreshFinal, .updateStats "Render".data "Stopping session...".data]
                if env.throws .stop then
                  .error (siteMsg .stop, st1, evs3)
                else
                  .ok ({ st1 with session := none }, evs3 ++ [REv.sessionStop])

/-- The `except` block of `render` (engine/__init__.py:156-166): report the
error, call `error_set`, append the error to `scene.luxcore.errorlog` and
clear the session handle. -/
def renderHandler (e : List Char) (st : RState) : RState × List REv :=
  ({ st with session := none, errorlog := st.errorlog ++ [e] },
   [REv.reportError e, REv.errorSet e])

/-- `LuxCoreRenderEngine.render` (engine/__init__.py:48-166). -/
def render (env : REnv) (st : RState) : RState × List REv :=
  match renderBody env st with
  | .ok (st', evs) => (st', evs)
  | .error (e, st', evs) =>
    let h := renderHandler e st'
    (h.1, evs ++ h.2)

/-- Call sites inside `view_draw`'s `try` block that may raise. -/
inductive VSite
  | getChanges               -- self._exporter.get_changes(...)
  | cameraUpdate             -- self._exporter.update(..., Change.CAMERA)
  | updateStatsS             -- self._session.UpdateStats()
  | waitNewFrame             -- self._session.WaitNewFrame()
  | fbUpdate                 -- self._framebuffer.update / draw
  | getStats                 -- self._session.GetStats()
  | pause                    -- self._session.Pause()
  deriving DecidableEq

/-- The message of the exception raised at a `view_draw` site. -/
def siteMsgV : VSite → List Char
  | .getChanges => "get_changes failed".data
  | .cameraUpdate => "update failed".data
  | .updateStatsS => "UpdateStats failed".data
  | .waitNewFrame => "WaitNewFrame failed".data
  | .fbUpdate => "framebuffer failed".data
  | .getStats => "GetStats failed".data
  | .pause => "Pause failed".data

/-- Events recorded by the viewport entry points. -/
inductive VEv
  | updateStats (s1 s2 : List Char)
  | sessionStart
  | tagRedraw
  | exporterUpdate           -- self._exporter.update(...) (may replace the session)
  | sessionUpdateStats       -- self._session.UpdateStats()
  | waitNewFrame             -- self._session.WaitNewFrame()
  | fbUpdate                 -- self._framebuffer.update(...)
  | fbDraw                   -- self._framebuffer.draw(...)
  | getStats                 -- self._session.GetStats()
  | pause                    -- self._session.Pause()
  | updateStatsPretty        -- self.update_stats(pretty_stats, status_message)
  deriving DecidableEq

/-- The engine fields touched by the viewport entry points. -/
structure VState where
  session : Option Unit
  framebuffer : Option Unit
  errorlog : List (List Char)
  deriving DecidableEq

/-- The change bitmask returned by `exporter.get_changes`, restricted to the
bits `view_draw`/`view_update_lux` test. -/
structure Changes where
  requiresViewUpdate : Bool
  config : Bool
  camera : Bool
  deriving DecidableEq

/-- Environment of one viewport call. -/
structure VEnv where
  changes : Changes          -- what get_changes reports when consulted
  createThrows : Bool        -- create_session raises in view_update_lux
  startThrows : Bool         -- Start raises in view_update_lux
  updateThrows : Bool        -- exporter.update raises in view_update_lux
  renderedTime : Int         -- stats.Get("stats.renderengine.time")
  haltTime : Int             -- scene.luxcore.display.viewport_halt_time
  isInPause : Bool           -- self._session.IsInPause()
  throwsV : VSite → Bool     -- raising sites inside view_draw

/-- Message of the exception caught while creating the viewport session. -/
def vuErrMsg : List Char := "session creation failed".data

/-- Message of an exception escaping `exporter.update` in `view_update_lux`. -/
def vuUpdateErrMsg : List Char := "exporter update failed".data

/-- `LuxCoreRenderEngine.view_update_lux` (engine/__init__.py:173-205).
The session-creation branch has its own `try`/`except` (which logs the
error and clears the handle); the lower branch is *not* wrapped, so an
exception there escapes as `.error` (to be caught by `view_draw`'s handler
when it was the caller, and by nobody when `view_update` was). -/
def view_update_lux (env : VEnv) (st : VState) (changes : Option Changes) :
    Except (List Char × VState × List VEv) (VState × List VEv) :=
  match st.session with
  | none =>
    let evs0 : List VEv := [.updateStats "Creating Render Session...".data [] ]
    if env.createThrows || env.startThrows then
      -- except: del session; session = None; reset exporter; show and log the error
      .ok ({ st with session := none, errorlog := st.errorlog ++ [vuErrMsg] },
           evs0 ++ [VEv.updateStats "Error: ".data vuErrMsg])
    else
      .ok ({ st with session := some () }, evs0 ++ [VEv.sessionStart])
  | some _ =>
    let ch := match changes with
      | some c => c
      | none => env.changes
    let st1 := if ch.config then { st with framebuffer := some () } else st
    if env.updateThrows then
      .error (vuUpdateErrMsg, st1, [])
    else
      -- re-assign the session (it might have been replaced)
      .ok ({ st1 with session := some () }, [VEv.exporterUpdate])

/-- The engine state after `view_draw`'s camera-update and framebuffer
steps (engine/__init__.py:220-227): `exporter.update` re-assigns the session
on a camera change, and a missing framebuffer is created. -/
def vdPostCamState (camera : Bool) (st : VState) : VState :=
  let st1 := if camera then { st with session := some () } else st
  if st1.framebuffer.isNone then { st1 with framebuffer := some () } else st1

/-- The session operations of `view_draw`'s `try` block after the change
handling (engine/__init__.py:229-257): UpdateStats, WaitNewFrame,
framebuffer update and draw, GetStats, the pause check and the stats
header. -/
def vdSessionOps (env : VEnv) (st2 : VState) (evs1 : List VEv) :
    Except (List Char × VState × List VEv) (VState × List VEv) :=
  if env.throwsV .updateStatsS then
    .error (siteMsgV .updateStatsS, st2, evs1)
  else if env.throwsV .waitNewFrame then
    .error (siteMsgV .waitNewFrame, st2, evs1 ++ [.sessionUpdateStats])
  else if env.throwsV .fbUpdate then
    .error (siteMsgV .fbUpdate, st2, evs1 ++ [.sessionUpdateStats, .waitNewFrame])
  else if env.throwsV .getStats then
    .error (siteMsgV .getStats, st2,
            evs1 ++ [.sessionUpdateStats, .waitNewFrame, .fbUpdate, .fbDraw])
  else
    let evs2 := evs1 ++ [VEv.sessionUpdateStats, .waitNewFrame, .fbUpdate, .fbDraw, .getStats]
    -- Check if we need to pause the viewport render
    if env.renderedTime > env.haltTime then
      if !env.isInPause then
        if env.throwsV .pause then
          .error (siteMsgV .pause, st2, evs2)
        else
          .ok (st2, evs2 ++ [VEv.pause, .updateStatsPretty])
      else
        .ok (st2, evs2 ++ [VEv.updateStatsPretty])
    else
      -- Not in pause yet, keep drawing
      .ok (st2, evs2 ++ [VEv.tagRedraw, .updateStatsPretty])

/-- The `try` block of `view_draw` (engine/__init__.py:211-257).  Only
called with a session present. -/
def viewDrawBody (env : VEnv) (st : VState) :
    Except (List Char × VState × List VEv) (VState × List VEv) :=
  if env.throwsV .getChanges then
    .error (siteMsgV .getChanges, st, [])
  else
    let ch := env.changes
    if ch.requiresViewUpdate then
      match view_update_lux env st (some ch) with
      | .error (m, st', evs) => .error (m, st', VEv.tagRedraw :: evs)
      | .ok (st', evs) => .ok (st', VEv.tagRedraw :: evs)
    else if ch.camera && env.throwsV .cameraUpdate then
      .error (siteMsgV .cameraUpdate, st, [])
    else
      vdSessionOps env (vdPostCamState ch.camera st)
        (if ch.camera then [VEv.exporterUpdate] else [])

/-- `LuxCoreRenderEngine.view_draw` (engine/__init__.py:207-264): an
immediate return when the session handle is `None`; otherwise the body,
whose exceptions are caught by a handler that clears the handle and shows
the error in the UI header — without touching the errorlog. -/
def view_draw (env : VEnv) (st : VState) : VState × List VEv :=
  match st.session with
  | none => (st, [])
  | some _ =>
    match viewDrawBody env st with
    | .ok r => r
    | .error (e, st', evs) =>
      ({ st' with session := none }, evs ++ [VEv.updateStats "Error: ".data e])

/-! ## Observations on traces and outcomes -/

/-- The `(objName, matName)` pairs of the `scene.objects.<n>.material`
assignments in a property list, in emission order. -/
def objMaterialPairs (l : List SceneProp) : List (List Char × List Char) :=
  l.filterMap fun p =>
    match p with
    | .objMaterial n m => some (n, m)
    | _ => none

/-- The material name `convert` assigns to mesh part `i`: the converted
slot material when slot `i` exists, the fallback otherwise. -/
def assignedMatName (slots : List (Option BMat)) (i : Nat) : List Char :=
  match slots.get? i with
  | some (some m) => m.luxName
  | _ => material_fallback.1

/-- The timestamp of a fast-phase iteration event. -/
def fastTimeOf : REv → Option Int
  | .fastIter t => some t
  | _ => none

/-- The timestamps of the fast-phase iterations in a trace. -/
def fastTimes (l : List REv) : List Int :=
  l.filterMap fastTimeOf

/-- Every timestamp that is followed by another one lies within
`FAST_REFRESH_DURATION` (= 5) of `start`: the loop never continues past
the window. -/
def windowOk (start : Int) : List Int → Prop
  | [] => True
  | t :: rest => (rest ≠ [] → t ≤ start + 5) ∧ windowOk start rest

/-- Is this event a main-loop iteration? -/
def isSlowIterEv : REv → Bool
  | .slowIter _ _ _ => true
  | _ => false

/-- Is this event a fast-phase iteration? -/
def isFastIterEv : REv → Bool
  | .fastIter _ => true
  | _ => false

/-- Every event the main loop emits: a well-flagged iteration marker, a
session update, a refresh, or the clamp computation. -/
def slowEvOk : REv → Prop
  | .slowIter _ d b => d = false ∧ b = false
  | .sessionUpdate => True
  | .refreshSlow _ => True
  | .clampComputed => True
  | _ => False

/-- Events of a loop outcome, whether it raised or not. -/
def exEvs : Except (List Char × List REv) (α × List REv) → List REv
  | .ok (_, evs) => evs
  | .error (_, evs) => evs

/-- Did the `try` block of `render` complete without raising? -/
def rbOk : Except (List Char × RState × List REv) (RState × List REv) → Bool
  | .ok _ => true
  | .error _ => false

/-- The message of the exception the `try` block of `render` raised. -/
def rbErr : Except (List Char × RState × List REv) (RState × List REv) → Option (List Char)
  | .ok _ => none
  | .error (e, _, _) => some e

/-- The engine state when the `try` block of `render` finished or raised. -/
def rbState : Except (List Char × RState × List REv) (RState × List REv) → RState
  | .ok (s, _) => s
  | .error (_, s, _) => s

/-- The events of the `try` block of `render`. -/
def rbEvs : Except (List Char × RState × List REv) (RState × List REv) → List REv
  | .ok (_, evs) => evs
  | .error (_, _, evs) => evs

/-- Did a viewport body complete without raising? -/
def vbOk : Except (List Char × VState × List VEv) (VState × List VEv) → Bool
  | .ok _ => true
  | .error _ => false

/-- The message of the exception a viewport body raised. -/
def vbErr : Except (List Char × VState × List VEv) (VState × List VEv) → Option (List Char)
  | .ok _ => none
  | .error (e, _, _) => some e

/-- The engine state when a viewport body finished or raised. -/
def vbState : Except (List Char × VState × List VEv) (VState × List VEv) → VState
  | .ok (s, _) => s
  | .error (_, s, _) => s

/-! ## Concrete inputs used by the witnesses and the counterexample -/

/-- External collaborators for the C4 witness scene. -/
def extW : ConvertExt :=
  { convert_lamp := fun _ => ([], none)
    to_mesh := fun _ => none
    defineBlenderMesh := fun _ _ => []
    defineMeshThrows := false }

/-- A concrete visible single-slot mesh object. -/
def objW : BObject :=
  { db := ⟨['o'], some "MESH".data, 7⟩
    hide := false
    hide_render := false
    layers := [true]
    is_duplicator := false
    particle_systems := []
    material_slots := [some ⟨['m'], [3], false, false⟩]
    enable_motion_blur := false
    hasData := true
    transform := [] }

/-- A concrete scene in which `objW` is visible. -/
def sceneW : BScene :=
  { cameraSome := false
    cameraClip := none
    motionBlurEnable := false
    objectBlur := false
    layers := [true]
    renderLayers := [true] }

/-- A cached exported object with two mesh parts, the second out of slot
range. -/
def eoW : ExportedObject := ⟨[['p'], ['q']], [(['p'], 0), (['q'], 1)]⟩

/-- A quiet final-render environment: no animation, no filesaver, nothing
raises, the halt condition fires on the first stats refresh. -/
def envW : REnv :=
  { is_animation := false
    use_filesaver := false
    use_clamping := true
    display_interval := 10
    refresh_interval := 1
    startTime := 0
    slowInit := 0
    ftime := fun _ => 0
    fhalt := fun _ => false
    ftb := fun _ => false
    fhasDone := fun _ => false
    stime := fun _ => 0
    shalt := fun _ => true
    stb := fun _ => false
    shasDone := fun _ => false
    schanges := fun _ => false
    throws := fun _ => false
    fastFuel := 2
    slowFuel := 2 }

/-- An engine state with a live session, about to render. -/
def stW : RState :=
  { session := some (), framebuffer := none, errorlog := [], error := none }

/-- `envW` as an animation render. -/
def envWanim : REnv :=
  { envW with is_animation := true }

/-- `envW` with `session.Start()` raising. -/
def envE : REnv :=
  { envW with throws := fun s => s == RSite.start }

/-- A quiet viewport environment: no changes, nothing raises. -/
def envV0 : VEnv :=
  { changes := ⟨false, false, false⟩
    createThrows := false
    startThrows := false
    updateThrows := false
    renderedTime := 0
    haltTime := 0
    isInPause := false
    throwsV := fun _ => false }

/-- A viewport state with the session handle already cleared. -/
def stVnone : VState :=
  { session := none, framebuffer := none, errorlog := [] }

/-- A viewport environment in which `session.UpdateStats()` raises. -/
def envCx : VEnv :=
  { envV0 with throwsV := fun s => s == VSite.updateStatsS }

/-- A viewport state with a live session and one prior errorlog entry. -/
def stCx : VState :=
  { session := some (), framebuffer := some (), errorlog := [['x']] }

/-! # Theorems -/

/-! ## C10 : humanized halt time -/

/-- C10: for every non-negative integer halt time `t`, the `(h, m, s)`
computed by the two `divmod` steps of the halt-conditions panel satisfy
`3600*h + 60*m + s = t` with `m < 60` and `s < 60`. -/
theorem humanize_halt_time_correct (t : Nat) :
    3600 * (humanize_halt_time t).1 + 60 * (humanize_halt_time t).2.1 +
        (humanize_halt_time t).2.2 = t ∧
    (humanize_halt_time t).2.1 < 60 ∧ (humanize_halt_time t).2.2 < 60 := by
  unfold humanize_halt_time
  refine ⟨?_, ?_, ?_⟩ <;> simp <;> omega

/-! ## C1 : shape of luxcore names -/

/-- C1: with `is_viewport_render = True`, `get_luxcore_name` returns exactly
the datablock's identity key — the decimal string of its pointer — and with
`is_viewport_render = False` it returns the sanitized pretty name (the
type-prefixed human-readable name with every maximal run of characters
outside `[_0-9a-zA-Z]` replaced by `"__"`), then `'_'`, then that same
identity key. -/
theorem get_luxcore_name_shape (db : Datablock) :
    get_luxcore_name db true = decChars db.as_pointer ∧
    get_luxcore_name db false =
      to_luxcore_name (get_pretty_name db) ++ '_' :: decChars db.as_pointer := by
  constructor <;> rfl

/-! ## C7 : viewport names survive renames -/

/-- C7: the viewport luxcore name depends only on the datablock's memory
identity — renaming the datablock (changing only `name`) leaves
`get_luxcore_name` with `is_viewport_render = True` unchanged. -/
theorem viewport_name_rename_stable (db : Datablock) (newName : List Char) :
    get_luxcore_name { db with name := newName } true = get_luxcore_name db true := rfl

/-! ## C2 : uniqueness of exported names -/

/-- Every character produced by `decAux` is a decimal digit character. -/
theorem decAux_digits {fuel n : Nat} {c : Char} (h : c ∈ decAux fuel n) :
    ∃ d, d < 10 ∧ c = Nat.digitChar d := by
  induction fuel generalizing n with
  | zero => simp [decAux] at h
  | succ fuel ih =>
    unfold decAux at h
    split at h
    · simp at h
    · rcases List.mem_append.mp h with h' | h'
      · exact ih h'
      · simp at h'
        exact ⟨n % 10, Nat.mod_lt _ (by norm_num), h'⟩

/-- No character of an identity key is an underscore. -/
theorem make_key_no_underscore (db : Datablock) {c : Char} (h : c ∈ make_key db) :
    c ≠ '_' := by
  unfold make_key decChars at h
  split at h
  · simp at h
    subst h
    decide
  · obtain ⟨d, hd, rfl⟩ := decAux_digits h
    interval_cases d <;> decide

/-- A string of the form `r ++ '_' :: t` with `'_' ∉ r` determines `r` and
`t`. -/
theorem sep_inj (r1 : List Char) : ∀ (r2 t1 t2 : List Char), '_' ∉ r1 → '_' ∉ r2 →
    r1 ++ '_' :: t1 = r2 ++ '_' :: t2 → r1 = r2 ∧ t1 = t2 := by
  induction r1 with
  | nil =>
    intro r2 t1 t2 _ h2 he
    cases r2 with
    | nil => simpa using he
    | cons c r2' =>
      rw [List.nil_append, List.cons_append] at he
      injection he with h h'
      exact absurd (List.mem_cons.mpr (Or.inl h)) h2
  | cons a r1' ih =>
    intro r2 t1 t2 h1 h2 he
    cases r2 with
    | nil =>
      rw [List.nil_append, List.cons_append] at he
      injection he with h h'
      exact absurd (List.mem_cons.mpr (Or.inl h.symm)) h1
    | cons b r2' =>
      rw [List.cons_append, List.cons_append] at he
      injection he with hab he'
      obtain ⟨hr, ht⟩ := ih r2' t1 t2
        (fun hm => h1 (List.mem_cons_of_mem _ hm))
        (fun hm => h2 (List.mem_cons_of_mem _ hm)) he'
      exact ⟨by rw [hab, hr], ht⟩

/-- C2: exported names are unique — datablocks with different identity keys
get different `get_luxcore_name` results, both in viewport mode and in
final-render mode (where the digit-only key is the suffix after the last
underscore, so equal full names would force equal keys). -/
theorem luxcore_names_unique (db1 db2 : Datablock) (b : Bool)
    (h : make_key db1 ≠ make_key db2) :
    get_luxcore_name db1 b ≠ get_luxcore_name db2 b := by
  cases b with
  | true =>
    simpa [get_luxcore_name] using h
  | false =>
    intro he
    simp only [get_luxcore_name, Bool.not_false, if_pos] at he
    apply h
    have hrev := congrArg List.reverse he
    simp only [List.reverse_append, List.reverse_cons, List.append_assoc,
      List.singleton_append] at hrev
    have hk := (sep_inj _ _ _ _
      (fun hm => make_key_no_underscore db1 (List.mem_reverse.mp hm) rfl)
      (fun hm => make_key_no_underscore db2 (List.mem_reverse.mp hm) rfl) hrev).1
    exact List.reverse_injective hk

/-- Witness for C2 at concrete datablocks with pointers 1 and 2. -/
theorem luxcore_names_unique_witness :
    make_key ⟨['a'], none, 1⟩ ≠ make_key ⟨['a'], none, 2⟩ ∧
    get_luxcore_name ⟨['a'], none, 1⟩ false ≠ get_luxcore_name ⟨['a'], none, 2⟩ false :=
  ⟨by decide, luxcore_names_unique ⟨['a'], none, 1⟩ ⟨['a'], none, 2⟩ false (by decide)⟩

/-! ## C9 : GlossyTranslucent export keys -/

set_option maxHeartbeats 3200000 in
/-- C9: the GlossyTranslucent export always contains `type` (equal to
`"glossytranslucent"`), `kd`, `kt`, `multibounce`, `ks`, `ka` and `d`;
it contains `index` iff `use_ior` is enabled; it contains
`multibounce_bf`, `ks_bf`, `ka_bf` and `d_bf` iff `use_backface` is
enabled; and it contains `index_bf` iff both `use_backface` and
`use_ior_bf` are enabled. -/
theorem glossytranslucent_export_keys (n : GlossyTranslucentNode) :
    (exportGlossyTranslucent n).lookup "type".data = some (DefVal.s "glossytranslucent".data) ∧
    hasKey "kd".data (exportGlossyTranslucent n) = true ∧
    hasKey "kt".data (exportGlossyTranslucent n) = true ∧
    hasKey "multibounce".data (exportGlossyTranslucent n) = true ∧
    hasKey "ks".data (exportGlossyTranslucent n) = true ∧
    hasKey "ka".data (exportGlossyTranslucent n) = true ∧
    hasKey "d".data (exportGlossyTranslucent n) = true ∧
    hasKey "index".data (exportGlossyTranslucent n) = n.use_ior ∧
    hasKey "multibounce_bf".data (exportGlossyTranslucent n) = n.use_backface ∧
    hasKey "ks_bf".data (exportGlossyTranslucent n) = n.use_backface ∧
    hasKey "ka_bf".data (exportGlossyTranslucent n) = n.use_backface ∧
    hasKey "d_bf".data (exportGlossyTranslucent n) = n.use_backface ∧
    hasKey "index_bf".data (exportGlossyTranslucent n) = (n.use_backface && n.use_ior_bf) := by
  obtain ⟨mb, ui, ub, mbf, uibf, ua, kd, kt, ks, ka, d, ior, ksbf, kabf, dbf, iorbf,
    r, ur, vr, rbf, urbf, vrbf, bv, ov⟩ := n
  cases ui <;> cases ub <;> cases uibf <;> cases ua <;> cases bv <;> cases ov <;>
    exact ⟨rfl, rfl, rfl, rfl, rfl, rfl, rfl, rfl, rfl, rfl, rfl, rfl, rfl⟩

/-! ## C4 : one object block per mesh definition -/

/-- `objMaterialPairs` distributes over append. -/
theorem objMaterialPairs_append (a b : List SceneProp) :
    objMaterialPairs (a ++ b) = objMaterialPairs a ++ objMaterialPairs b := by
  simp [objMaterialPairs]

/-- `objMaterialPairs` of an empty property list. -/
theorem objMaterialPairs_nil : objMaterialPairs [] = [] := rfl

/-- Material sub-property blobs contain no object-material assignment. -/
theorem objMaterialPairs_matBlob (l : List Nat) :
    objMaterialPairs (l.map SceneProp.matBlob) = [] := by
  induction l with
  | nil => rfl
  | cons a l ih => simp [objMaterialPairs] at ih ⊢

/-- The pointiness shape props contain no object-material assignment. -/
theorem objMaterialPairs_pointiness (s : List (Option BMat)) (nm : List Char) :
    objMaterialPairs (_handle_pointiness s nm).1 = [] := by
  simp only [_handle_pointiness]
  split <;> rfl

/-- `_define_luxcore_object` assigns exactly one material to exactly the
given object name. -/
theorem objMaterialPairs_define (n matName : List Char) (t : Option (List Int))
    (obj : BObject) :
    objMaterialPairs (_define_luxcore_object n matName t obj) = [(n, matName)] := by
  cases t <;>
    simp [_define_luxcore_object, objMaterialPairs_append, objMaterialPairs] <;>
    exact List.filterMap_eq_nil_iff.mp (objMaterialPairs_pointiness _ _)

/-- The per-part loop of `convert` emits exactly one material assignment
per `(name, material_index)` pair, in order, choosing the slot material
when the index is in range and the fallback otherwise. -/
theorem convertLoop_pairs (obj : BObject) (t : Option (List Int))
    (defs : List (List Char × Nat)) :
    objMaterialPairs (convertLoop obj t defs).1 =
      defs.map (fun d => (d.1, assignedMatName obj.material_slots d.2)) := by
  induction defs with
  | nil => rfl
  | cons hd rest ih =>
    obtain ⟨n, i⟩ := hd
    unfold convertLoop
    cases hs : obj.material_slots.get? i with
    | none =>
      have ha : assignedMatName obj.material_slots i = material_fallback.1 := by
        unfold assignedMatName
        rw [hs]
      simp only [hs, ha, objMaterialPairs_append, objMaterialPairs_define,
        objMaterialPairs_nil, ih, material_fallback, List.map_cons, List.nil_append,
        List.cons_append, List.append_nil]
    | some mat =>
      cases mat with
      | none =>
        have ha : assignedMatName obj.material_slots i = material_fallback.1 := by
          unfold assignedMatName
          rw [hs]
        simp [hs, ha, objMaterialPairs_append, objMaterialPairs_define, ih,
          material_convert, material_fallback]
      | some m =>
        have ha : assignedMatName obj.material_slots i = m.luxName := by
          unfold assignedMatName
          rw [hs]
        simp [hs, ha, objMaterialPairs_append, objMaterialPairs_define, ih,
          material_convert, objMaterialPairs_matBlob]

/-- C4: for a visible mesh object (all of whose slots hold materials),
`convert` emits exactly one `scene.objects.<name>.material` assignment per
`(luxcore name, material index)` pair of the mesh definitions, in order;
the assigned material is the slot's material when the index is in range and
the fallback material otherwise; and the returned
`ExportedObject.luxcore_names` lists exactly the pair names in the same
order. -/
theorem convert_object_blocks (ext : ConvertExt) (obj : BObject) (scene : BScene)
    (context : Bool) (dupli_suffix : List Char) (eo : ExportedObject)
    (hvis : is_obj_visible obj scene context (!dupli_suffix.isEmpty) = true)
    (hdup : (obj.is_duplicator && !is_duplicator_visible obj) = false)
    (hlamp : (obj.db.type == some "LAMP".data) = false)
    (hdata : obj.hasData = true)
    (hslots : ∀ s ∈ obj.material_slots, s.isSome = true) :
    objMaterialPairs (convert ext obj scene context (some eo) false dupli_suffix).1 =
      eo.mesh_definitions.map (fun d => (d.1, assignedMatName obj.material_slots d.2)) ∧
    (convert ext obj scene context (some eo) false dupli_suffix).2.1 =
      some (ExportedThing.o ⟨eo.mesh_definitions.map Prod.fst, eo.mesh_definitions⟩) ∧
    (∀ d ∈ eo.mesh_definitions, d.2 < obj.material_slots.length →
      ∃ m, obj.material_slots.get? d.2 = some (some m) ∧
        assignedMatName obj.material_slots d.2 = m.luxName) ∧
    (∀ d ∈ eo.mesh_definitions, ¬ d.2 < obj.material_slots.length →
      assignedMatName obj.material_slots d.2 = material_fallback.1) := by
  refine ⟨?_, ?_, ?_, ?_⟩
  · simp only [convert, hvis, hdup, hlamp, hdata, Bool.not_true, Bool.false_eq_true,
      if_false, ite_false, Bool.true_eq_false]
    rw [convertLoop_pairs]
  · simp [convert, hvis, hdup, hlamp, hdata, ExportedObject.make]
  · intro d _ hlt
    have hget : obj.material_slots.get? d.2 =
        some (obj.material_slots.get ⟨d.2, hlt⟩) := List.get?_eq_get hlt
    obtain ⟨m, hm⟩ := Option.isSome_iff_exists.mp
      (hslots _ (obj.material_slots.get_mem _ _))
    exact ⟨m, by rw [hget, hm], by unfold assignedMatName; rw [hget, hm]⟩
  · intro d _ hlt
    have hget : obj.material_slots.get? d.2 = none :=
      List.get?_eq_none.mpr (Nat.le_of_not_lt hlt)
    unfold assignedMatName
    rw [hget]

/-- Witness for C4 at the concrete scene above. -/
theorem convert_object_blocks_witness :
    objMaterialPairs (convert extW objW sceneW true (some eoW) false []).1 =
      eoW.mesh_definitions.map (fun d => (d.1, assignedMatName objW.material_slots d.2)) ∧
    (convert extW objW sceneW true (some eoW) false []).2.1 =
      some (ExportedThing.o ⟨eoW.mesh_definitions.map Prod.fst, eoW.mesh_definitions⟩) :=
  ⟨(convert_object_blocks extW objW sceneW true [] eoW (by decide) (by decide)
      (by decide) (by decide) (by decide)).1,
   (convert_object_blocks extW objW sceneW true [] eoW (by decide) (by decide)
      (by decide) (by decide) (by decide)).2.1⟩

theorem exEvs_withEvs (evs : List REv) (r : Except (List Char × List REv) (α × List REv)) :
    exEvs (withEvs evs r) = evs ++ exEvs r := by
  cases r with
  | ok a => obtain ⟨x, e⟩ := a; rfl
  | error a => obtain ⟨m, e⟩ := a; rfl

theorem fastTimes_append (a b : List REv) :
    fastTimes (a ++ b) = fastTimes a ++ fastTimes b := by
  simp [fastTimes]

theorem fastLoop_windowOk (env : REnv) :
    ∀ fuel k done, windowOk env.startTime (fastTimes (exEvs (fastLoop env fuel k done))) := by
  intro fuel
  induction fuel with
  | zero => intro k done; simp [fastLoop, exEvs, fastTimes, windowOk]
  | succ fuel ih =>
    intro k done
    unfold fastLoop
    by_cases hd : done = true
    · simp [hd, exEvs, fastTimes, windowOk]
    · simp only [Bool.not_eq_true] at hd
      by_cases hA : env.refresh_interval < env.ftime k
      · by_cases hT : env.throws (.fastRefresh k) = true
        · simp [hd, hA, hT, exEvs, fastTimes, fastTimeOf, windowOk]
        · by_cases hB : 5 < env.ftime k - env.startTime
          · simp [hd, hA, hT, hB, exEvs, fastTimes, fastTimeOf, windowOk]
          · simp only [Int.sub_zero, gt_iff_lt, hd, hA, hT, hB, Bool.false_eq_true,
              if_true, if_false, ite_true, ite_false, exEvs_withEvs]
            simp only [fastTimes, List.filterMap_cons, List.filterMap_append,
              fastTimeOf, windowOk]
            refine ⟨fun _ => by omega, ?_⟩
            simpa [fastTimes] using ih (k + 1) _
      · by_cases hB : 5 < env.ftime k - env.startTime
        · simp [hd, hA, hB, exEvs, fastTimes, fastTimeOf, windowOk]
        · simp only [Int.sub_zero, gt_iff_lt, hd, hA, hB, Bool.false_eq_true,
            if_true, if_false, ite_true, ite_false, exEvs_withEvs]
          simp only [fastTimes, List.filterMap_cons, List.filterMap_append,
            fastTimeOf, windowOk]
          refine ⟨fun _ => by omega, ?_⟩
          simpa [fastTimes] using ih (k + 1) _

theorem fastLoop_noSlow (env : REnv) :
    ∀ fuel k done, ∀ e ∈ exEvs (fastLoop env fuel k done), isSlowIterEv e = false := by
  intro fuel
  induction fuel with
  | zero => intro k done e he; simp [fastLoop, exEvs] at he
  | succ fuel ih =>
    intro k done
    unfold fastLoop
    by_cases hd : done = true
    · simp [hd, exEvs]
    · simp only [Bool.not_eq_true] at hd
      by_cases hA : env.refresh_interval < env.ftime k
      · by_cases hT : env.throws (.fastRefresh k) = true
        · simp [hd, hA, hT, exEvs, isSlowIterEv]
        · by_cases hB : 5 < env.ftime k - env.startTime
          · simp [hd, hA, hT, hB, exEvs, isSlowIterEv]
          · simp only [Int.sub_zero, gt_iff_lt, hd, hA, hT, hB, Bool.false_eq_true,
              if_true, if_false, ite_true, ite_false, exEvs_withEvs]
            simp only [List.forall_mem_append, List.forall_mem_cons,
              List.forall_mem_singleton, isSlowIterEv]
            exact ⟨by simp, ih (k + 1) _⟩
      · by_cases hB : 5 < env.ftime k - env.startTime
        · simp [hd, hA, hB, exEvs, isSlowIterEv]
        · simp only [Int.sub_zero, gt_iff_lt, hd, hA, hB, Bool.false_eq_true,
            if_true, if_false, ite_true, ite_false, exEvs_withEvs]
          simp only [List.forall_mem_append, List.forall_mem_cons,
            List.forall_mem_singleton, isSlowIterEv]
          exact ⟨by simp, ih (k + 1) _⟩

theorem clampStep_evs (env : REnv) (now : Int) (st : SlowSt) :
    (clampStep env now st).2 = [] ∨ (clampStep env now st).2 = [REv.clampComputed] := by
  unfold clampStep
  split <;> simp

theorem slowLoop_guard_done (env : REnv) (fuel k : Nat) (st : SlowSt)
    (h : st.done = true) : slowLoop env fuel k st = .ok (st, []) := by
  cases fuel <;> simp [slowLoop, h]

theorem slowLoop_guard_break (env : REnv) (fuel k : Nat) (st : SlowSt)
    (h : env.stb k = true) : slowLoop env fuel k st = .ok (st, []) := by
  cases fuel <;> simp [slowLoop, h]

/-- Every event the main loop emits: a well-flagged iteration marker, a
session update, a refresh, or the clamp computation. -/

theorem clampStep_forall (env : REnv) (now : Int) (st : SlowSt) {P : REv → Prop}
    (h : P REv.clampComputed) : ∀ e ∈ (clampStep env now st).2, P e := by
  rcases clampStep_evs env now st with hc | hc <;> rw [hc] <;> simp [h]

theorem slowLoop_evOk (env : REnv) :
    ∀ fuel k st, ∀ e ∈ exEvs (slowLoop env fuel k st), slowEvOk e := by
  intro fuel
  induction fuel with
  | zero => intro k st e he; simp [slowLoop, exEvs] at he
  | succ fuel ih =>
    intro k st
    unfold slowLoop
    by_cases hg : (env.stb k || st.done) = true
    · simp [hg, exEvs]
    · simp only [Bool.or_eq_true, not_or, Bool.not_eq_true] at hg
      obtain ⟨hstb, hdone⟩ := hg
      by_cases hR : 1 < env.stime k - st.lastStat
      · by_cases hU : env.throws (.updateSession k) = true
        · simp [hstb, hdone, hR, hU, exEvs, slowEvOk]
        · by_cases hS : env.throws (.slowRefresh k) = true
          · simp [hstb, hdone, hR, hU, hS, exEvs, slowEvOk]
          · simp only [hstb, hdone, hR, hU, hS, Bool.false_eq_true, Bool.or_false,
              if_true, if_false, ite_true, ite_false, exEvs_withEvs]
            simp only [List.cons_append, List.append_assoc, List.forall_mem_cons,
              List.forall_mem_append]
            and_intros <;>
              first
                | exact ih (k + 1) _
                | exact clampStep_forall _ _ _ (by simp [slowEvOk])
                | simp [slowEvOk]
      · simp only [hstb, hdone, hR, Bool.false_eq_true, Bool.or_false,
          if_true, if_false, ite_true, ite_false, exEvs_withEvs]
        simp only [List.cons_append, List.nil_append, List.append_assoc,
          List.forall_mem_cons, List.forall_mem_append]
        and_intros <;>
          first
            | exact ih (k + 1) _
            | exact clampStep_forall _ _ _ (by simp [slowEvOk])
            | simp [slowEvOk]

theorem slowLoop_flags (env : REnv) (fuel k : Nat) (st : SlowSt) (t : Int) (d b : Bool)
    (h : REv.slowIter t d b ∈ exEvs (slowLoop env fuel k st)) : d = false ∧ b = false :=
  slowLoop_evOk env fuel k st _ h

theorem slowLoop_noFast (env : REnv) (fuel k : Nat) (st : SlowSt) :
    ∀ e ∈ exEvs (slowLoop env fuel k st), isFastIterEv e = false := by
  intro e he
  have := slowLoop_evOk env fuel k st e he
  cases e <;> first | rfl | simp [slowEvOk] at this

theorem fastTimes_nil_of_noFast {l : List REv} (h : ∀ e ∈ l, isFastIterEv e = false) :
    fastTimes l = [] := by
  rw [fastTimes, List.filterMap_eq_nil_iff]
  intro e he
  have := h e he
  cases e <;> first | rfl | simp [isFastIterEv] at this

theorem fastPhase_noSlow (env : REnv) :
    ∀ e ∈ exEvs (fastPhase env), isSlowIterEv e = false := by
  unfold fastPhase
  split
  · simp [exEvs]
  · exact fastLoop_noSlow env env.fastFuel 0 false

theorem fastPhase_windowOk (env : REnv) :
    windowOk env.startTime (fastTimes (exEvs (fastPhase env))) := by
  unfold fastPhase
  split
  · simp [exEvs, fastTimes, windowOk]
  · exact fastLoop_windowOk env env.fastFuel 0 false

theorem fastPhase_anim (env : REnv) (h : env.is_animation = true) :
    fastTimes (exEvs (fastPhase env)) = [] := by
  simp [fastPhase, h, exEvs, fastTimes]

theorem render_split (env : REnv) (st : RState) :
    ∃ A B C, (render env st).2 = A ++ B ++ C ∧
      (∀ e ∈ A, isSlowIterEv e = false) ∧
      (∀ e ∈ B, isFastIterEv e = false) ∧
      (∀ t d b, REv.slowIter t d b ∈ B → d = false ∧ b = false) ∧
      (∀ e ∈ C, isSlowIterEv e = false ∧ isFastIterEv e = false) ∧
      windowOk env.startTime (fastTimes A) ∧
      (env.is_animation = true → fastTimes A = []) := by
  have hFs := fastPhase_noSlow env
  have hFw := fastPhase_windowOk env
  have hFa := fastPhase_anim env
  cases herr : st.error with
  | some e =>
    refine ⟨[], [], (render env st).2, by simp, by simp, by simp, by simp, ?_,
      by simp [fastTimes, windowOk], by simp [fastTimes]⟩
    simp [render, renderBody, renderHandler, herr, isSlowIterEv, isFastIterEv]
  | none =>
    cases hses : st.session with
    | none =>
      refine ⟨[], [], (render env st).2, by simp, by simp, by simp, by simp, ?_,
        by simp [fastTimes, windowOk], by simp [fastTimes]⟩
      simp [render, renderBody, herr, hses]
    | some u =>
      by_cases hstart : env.throws RSite.start = true
      · refine ⟨[], [], (render env st).2, by simp, by simp, by simp, by simp, ?_,
          by simp [fastTimes, windowOk], by simp [fastTimes]⟩
        simp [render, renderBody, renderHandler, herr, hses, hstart,
          isSlowIterEv, isFastIterEv]
      · by_cases hfs : env.use_filesaver = true
        · by_cases hfsS : env.throws RSite.fsStop = true
          · refine ⟨[], [], (render env st).2, by simp, by simp, by simp, by simp, ?_,
              by simp [fastTimes, windowOk], by simp [fastTimes]⟩
            simp [render, renderBody, renderHandler, herr, hses, hstart, hfs, hfsS,
              isSlowIterEv, isFastIterEv]
          · refine ⟨[], [], (render env st).2, by simp, by simp, by simp, by simp, ?_,
              by simp [fastTimes, windowOk], by simp [fastTimes]⟩
            simp [render, renderBody, renderHandler, herr, hses, hstart, hfs, hfsS,
              isSlowIterEv, isFastIterEv]
        · cases hf : fastPhase env with
          | error p =>
            obtain ⟨m, evsF⟩ := p
            rw [hf] at hFs hFw hFa
            simp only [exEvs] at hFs hFw hFa
            refine ⟨REv.updateStats "Render".data "Starting session...".data ::
                REv.sessionStart :: evsF, [],
              [REv.reportError m, REv.errorSet m], ?_, ?_, by simp, by simp, ?_, ?_, ?_⟩
            · simp [render, renderBody, renderHandler, herr, hses, hstart, hfs, hf]
            · simp only [List.forall_mem_cons]
              exact ⟨rfl, rfl, hFs⟩
            · simp [isSlowIterEv, isFastIterEv]
            · simp only [fastTimes, List.filterMap_cons, fastTimeOf]
              simpa [fastTimes] using hFw
            · intro ha
              simp only [fastTimes, List.filterMap_cons, fastTimeOf]
              simpa [fastTimes] using hFa ha
          | ok p =>
            obtain ⟨dn, evsF⟩ := p
            rw [hf] at hFs hFw hFa
            simp only [exEvs] at hFs hFw hFa
            have hSo := slowLoop_evOk env env.slowFuel 0 ⟨dn, env.slowInit, env.slowInit, false⟩
            have hSf := slowLoop_noFast env env.slowFuel 0 ⟨dn, env.slowInit, env.slowInit, false⟩
            cases hs : slowLoop env env.slowFuel 0 ⟨dn, env.slowInit, env.slowInit, false⟩ with
            | error q =>
              obtain ⟨m, evsS⟩ := q
              rw [hs] at hSo hSf
              simp only [exEvs] at hSo hSf
              refine ⟨REv.updateStats "Render".data "Starting session...".data ::
                  REv.sessionStart :: evsF, evsS,
                [REv.reportError m, REv.errorSet m], ?_, ?_, hSf, ?_, ?_, ?_, ?_⟩
              · simp [render, renderBody, renderHandler, herr, hses, hstart, hfs, hf, hs]
              · simp only [List.forall_mem_cons]
                exact ⟨rfl, rfl, hFs⟩
              · exact fun t d b hm => hSo _ hm
              · simp [isSlowIterEv, isFastIterEv]
              · simp only [fastTimes, List.filterMap_cons, fastTimeOf]
                simpa [fastTimes] using hFw
              · intro ha
                simp only [fastTimes, List.filterMap_cons, fastTimeOf]
                simpa [fastTimes] using hFa ha
            | ok q =>
              obtain ⟨stS, evsS⟩ := q
              rw [hs] at hSo hSf
              simp only [exEvs] at hSo hSf
              have hbase : ∀ (tail : List REv),
                  (∀ e ∈ tail, isSlowIterEv e = false ∧ isFastIterEv e = false) →
                  (render env st).2 =
                    (REv.updateStats "Render".data "Starting session...".data ::
                      REv.sessionStart :: evsF) ++ evsS ++ tail →
                  ∃ A B C, (render env st).2 = A ++ B ++ C ∧
                    (∀ e ∈ A, isSlowIterEv e = false) ∧
                    (∀ e ∈ B, isFastIterEv e = false) ∧
                    (∀ t d b, REv.slowIter t d b ∈ B → d = false ∧ b = false) ∧
                    (∀ e ∈ C, isSlowIterEv e = false ∧ isFastIterEv e = false) ∧
                    windowOk env.startTime (fastTimes A) ∧
                    (env.is_animation = true → fastTimes A = []) := by
                intro tail htail heq
                refine ⟨_, evsS, tail, heq, ?_, hSf, ?_, htail, ?_, ?_⟩
                · simp only [List.forall_mem_cons]
                  exact ⟨rfl, rfl, hFs⟩
                · exact fun t d b hm => hSo _ hm
                · simp only [fastTimes, List.filterMap_cons, fastTimeOf]
                  simpa [fastTimes] using hFw
                · intro ha
                  simp only [fastTimes, List.filterMap_cons, fastTimeOf]
                  simpa [fastTimes] using hFa ha
              by_cases hfr : env.throws RSite.finalRefresh = true
              · refine hbase [REv.reportError (siteMsg RSite.finalRefresh),
                  REv.errorSet (siteMsg RSite.finalRefresh)]
                  (by simp [isSlowIterEv, isFastIterEv]) ?_
                simp [render, renderBody, renderHandler, herr, hses, hstart, hfs,
                  hf, hs, hfr]
              · by_cases hstop : env.throws RSite.stop = true
                · refine hbase [REv.refreshFinal,
                    REv.updateStats "Render".data "Stopping session...".data,
                    REv.reportError (siteMsg RSite.stop), REv.errorSet (siteMsg RSite.stop)]
                    (by simp [isSlowIterEv, isFastIterEv]) ?_
                  simp [render, renderBody, renderHandler, herr, hses, hstart, hfs,
                    hf, hs, hfr, hstop]
                · refine hbase [REv.refreshFinal,
                    REv.updateStats "Render".data "Stopping session...".data,
                    REv.sessionStop]
                    (by simp [isSlowIterEv, isFastIterEv]) ?_
                  simp [render, renderBody, herr, hses, hstart, hfs, hf, hs, hfr, hstop]

theorem renderBody_ok_session (env : REnv) (st st' : RState) (evs : List REv)
    (h : renderBody env st = .ok (st', evs)) : st'.session = none := by
  unfold renderBody at h
  repeat' split at h
  all_goals (try (simp only [Except.ok.injEq, Except.error.injEq, Prod.mk.injEq] at h))
  all_goals
    first
      | (obtain ⟨h1, h2⟩ := h
         subst h1
         subst h2
         simp_all)
      | (obtain ⟨h0, h1, h2⟩ := h
         subst h1
         subst h2
         simp_all)
      | simp_all

theorem renderBody_ok_stop (env : REnv) (st st' : RState) (evs : List REv)
    (hses : st.session = some ()) (h : renderBody env st = .ok (st', evs)) :
    REv.sessionStop ∈ evs := by
  unfold renderBody at h
  repeat' split at h
  all_goals (try (simp only [Except.ok.injEq, Except.error.injEq, Prod.mk.injEq] at h))
  all_goals
    first
      | (obtain ⟨h1, h2⟩ := h
         subst h1
         subst h2
         simp_all)
      | (obtain ⟨h0, h1, h2⟩ := h
         subst h1
         subst h2
         simp_all)
      | simp_all

theorem renderBody_error_facts (env : REnv) (st : RState) (e : List Char)
    (st' : RState) (evs : List REv)
    (h : renderBody env st = .error (e, st', evs)) :
    st'.errorlog = st.errorlog := by
  unfold renderBody at h
  repeat' split at h
  all_goals (try (simp only [Except.ok.injEq, Except.error.injEq, Prod.mk.injEq] at h))
  all_goals
    first
      | (obtain ⟨h1, h2⟩ := h
         subst h1
         subst h2
         simp_all)
      | (obtain ⟨h0, h1, h2⟩ := h
         subst h1
         subst h2
         simp_all)
      | simp_all

theorem render_session_none (env : REnv) (st : RState) :
    (render env st).1.session = none := by
  unfold render
  cases hb : renderBody env st with
  | ok p =>
    obtain ⟨st', evs⟩ := p
    simpa using renderBody_ok_session env st st' evs hb
  | error p =>
    obtain ⟨e, st', evs⟩ := p
    simp [renderHandler]

/-- C5: the final-render main loop refuses to run once `done` is set or
`test_break` reports true (the loop returns immediately, with no events);
every main-loop iteration that does run starts with both flags false; and
when the `try` block of `render` completes with a session present, the
session was stopped and the handle ends cleared to `None`. -/
theorem main_loop_exit_discipline :
    (∀ (env : REnv) (fuel k : Nat) (s : SlowSt), s.done = true →
      slowLoop env fuel k s = .ok (s, [])) ∧
    (∀ (env : REnv) (fuel k : Nat) (s : SlowSt), env.stb k = true →
      slowLoop env fuel k s = .ok (s, [])) ∧
    (∀ (env : REnv) (st : RState) (t : Int) (d b : Bool),
      REv.slowIter t d b ∈ (render env st).2 → d = false ∧ b = false) ∧
    (∀ (env : REnv) (st st' : RState) (evs : List REv),
      st.session = some () → renderBody env st = .ok (st', evs) →
      REv.sessionStop ∈ evs ∧ st'.session = none ∧ (render env st).1.session = none) := by
  refine ⟨slowLoop_guard_done, slowLoop_guard_break, ?_, ?_⟩
  · intro env st t d b hm
    obtain ⟨A, B, C, heq, hA, _, hB, hC, _, _⟩ := render_split env st
    rw [heq] at hm
    rcases List.mem_append.mp hm with hm' | hm'
    · rcases List.mem_append.mp hm' with hm'' | hm''
      · have := hA _ hm''
        simp [isSlowIterEv] at this
      · exact hB t d b hm''
    · have := (hC _ hm').1
      simp [isSlowIterEv] at this
  · intro env st st' evs hses hok
    exact ⟨renderBody_ok_stop env st st' evs hses hok,
      renderBody_ok_session env st st' evs hok,
      render_session_none env st⟩

/-- Witness for C5: a concrete quiet render in which the body completes,
`Stop` is among its events and the handle ends `None`. -/
theorem main_loop_exit_discipline_witness :
    stW.session = some () ∧
    REv.sessionStop ∈ rbEvs (renderBody envW stW) ∧
    (render envW stW).1.session = none := by
  have h := main_loop_exit_discipline.2.2.2 envW stW
  have hok : rbOk (renderBody envW stW) = true := by decide
  cases hb : renderBody envW stW with
  | ok p =>
    obtain ⟨st', evs⟩ := p
    have h2 := h st' evs rfl hb
    exact ⟨rfl, by simpa [rbEvs] using h2.1, h2.2.2⟩
  | error p =>
    rw [hb] at hok
    simp [rbOk] at hok

/-- C6: for an animation render the fast-refresh phase is skipped entirely
(no fast iterations in the trace); every fast iteration that is followed by
another one samples a time within `FAST_REFRESH_DURATION` (= 5) of `start`;
and the trace splits into a fast prefix and a remainder with no fast
iteration — the driver never returns to the fast phase. -/
theorem fast_phase_behavior (env : REnv) (st : RState) :
    (env.is_animation = true → fastTimes (render env st).2 = []) ∧
    windowOk env.startTime (fastTimes (render env st).2) ∧
    ∃ A B, (render env st).2 = A ++ B ∧
      (∀ (t : Int) (d b : Bool), REv.slowIter t d b ∉ A) ∧
      (∀ t : Int, REv.fastIter t ∉ B) := by
  obtain ⟨A, B, C, heq, hA, hB, _, hC, hw, ha⟩ := render_split env st
  have hBt : fastTimes B = [] := fastTimes_nil_of_noFast hB
  have hCt : fastTimes C = [] := fastTimes_nil_of_noFast (fun e he => (hC e he).2)
  refine ⟨?_, ?_, A, B ++ C, by rw [heq, List.append_assoc], ?_, ?_⟩
  · intro hanim
    rw [heq, List.append_assoc, fastTimes_append, fastTimes_append, hBt, hCt, ha hanim]
    rfl
  · rw [heq, List.append_assoc, fastTimes_append, fastTimes_append, hBt, hCt]
    simpa using hw
  · intro t d b hm
    have := hA _ hm
    simp [isSlowIterEv] at this
  · intro t hm
    rcases List.mem_append.mp hm with hm' | hm'
    · have := hB _ hm'
      simp [isFastIterEv] at this
    · have := (hC _ hm').2
      simp [isFastIterEv] at this

/-- Witness for C6 at a concrete animation render. -/
theorem fast_phase_behavior_witness : fastTimes (render envWanim stW).2 = [] :=
  (fast_phase_behavior envWanim stW).1 rfl

/-- C8: a `view_draw` call with the session handle `None` returns at once,
performing no session operation; `render` always returns with the handle
cleared to `None` (normal completion, filesaver export and its error
handler alike); `view_draw`'s error handler clears the handle; and the
viewport session-creation error handler clears the handle. -/
theorem session_teardown_discipline :
    (∀ (env : VEnv) (st : VState), st.session = none → view_draw env st = (st, [])) ∧
    (∀ (env : REnv) (st : RState), (render env st).1.session = none) ∧
    (∀ (env : VEnv) (st : VState), vbOk (viewDrawBody env st) = false →
      (view_draw env st).1.session = none) ∧
    (∀ (env : VEnv) (st : VState) (ch : Option Changes), st.session = none →
      (env.createThrows || env.startThrows) = true →
      (vbState (view_update_lux env st ch)).session = none) := by
  refine ⟨?_, render_session_none, ?_, ?_⟩
  · intro env st h
    simp [view_draw, h]
  · intro env st h
    unfold view_draw
    cases hses : st.session with
    | none => simpa [view_draw, hses] using hses
    | some u =>
      cases hb : viewDrawBody env st with
      | ok p =>
        rw [hb] at h
        simp [vbOk] at h
      | error p =>
        obtain ⟨e, st', evs⟩ := p
        simp
  · intro env st ch hnone hthrow
    simp [view_update_lux, hnone, hthrow, vbState]

/-- Witness for C8 at concrete viewport and final-render inputs. -/
theorem session_teardown_discipline_witness :
    view_draw envV0 stVnone = (stVnone, []) ∧
    (render envW stW).1.session = none ∧
    (vbState (view_update_lux { envV0 with createThrows := true } stVnone none)).session = none :=
  ⟨session_teardown_discipline.1 envV0 stVnone rfl,
   session_teardown_discipline.2.1 envW stW,
   session_teardown_discipline.2.2.2 { envV0 with createThrows := true } stVnone none rfl rfl⟩

theorem vu_error_facts (env : VEnv) (st : VState) (ch : Option Changes) (e : List Char)
    (st' : VState) (evs : List VEv) (hses : st.session = some ())
    (h : view_update_lux env st ch = .error (e, st', evs)) :
    st'.errorlog = st.errorlog := by
  unfold view_update_lux at h
  rw [hses] at h
  repeat' split at h
  all_goals (try (simp only [Except.error.injEq, Except.ok.injEq, Prod.mk.injEq] at h))
  all_goals (try (obtain ⟨h0, h1, h2⟩ := h; subst h1; subst h2))
  all_goals (try split_ifs)
  all_goals simp_all

theorem vdPostCamState_errorlog (camera : Bool) (st : VState) :
    (vdPostCamState camera st).errorlog = st.errorlog := by
  unfold vdPostCamState
  cases camera <;> dsimp only <;> split_ifs <;> rfl

theorem vdSessionOps_error_state (env : VEnv) (st2 : VState) (evs1 : List VEv)
    (e : List Char) (st' : VState) (evs : List VEv)
    (h : vdSessionOps env st2 evs1 = .error (e, st', evs)) : st' = st2 := by
  unfold vdSessionOps at h
  split_ifs at h <;>
    simp only [Except.error.injEq, Except.ok.injEq, Prod.mk.injEq] at h <;>
    first
      | exact h.2.1.symm
      | simp at h

theorem viewDrawBody_error_facts (env : VEnv) (st : VState) (e : List Char)
    (st' : VState) (evs : List VEv)
    (hses : st.session = some ())
    (h : viewDrawBody env st = .error (e, st', evs)) :
    st'.errorlog = st.errorlog := by
  unfold viewDrawBody at h
  by_cases hg : env.throwsV VSite.getChanges = true
  · simp only [hg, if_true, ite_true] at h
    simp only [Except.error.injEq, Prod.mk.injEq] at h
    rw [← h.2.1]
  · by_cases hrvu : env.changes.requiresViewUpdate = true
    · simp only [hg, hrvu, Bool.false_eq_true, if_true, if_false,
        ite_true, ite_false] at h
      cases hvu : view_update_lux env st (some env.changes) with
      | ok p =>
        obtain ⟨a, b⟩ := p
        rw [hvu] at h
        simp at h
      | error p =>
        obtain ⟨m, stv, evsv⟩ := p
        rw [hvu] at h
        simp only [Except.error.injEq, Prod.mk.injEq] at h
        obtain ⟨-, h1, -⟩ := h
        rw [← h1]
        exact vu_error_facts env st (some env.changes) m stv evsv hses hvu
    · by_cases hcam : (env.changes.camera && env.throwsV VSite.cameraUpdate) = true
      · simp only [hg, hrvu, hcam, Bool.false_eq_true, if_true, if_false,
          ite_true, ite_false] at h
        simp only [Except.error.injEq, Prod.mk.injEq] at h
        rw [← h.2.1]
      · simp only [hg, hrvu, hcam, Bool.false_eq_true, if_false, ite_false] at h
        have h2 := vdSessionOps_error_state env (vdPostCamState env.changes.camera st)
          (if env.changes.camera = true then [VEv.exporterUpdate] else []) e st' evs h
        rw [h2]
        exact vdPostCamState_errorlog env.changes.camera st

theorem render_error_handled (env : REnv) (st : RState) (e : List Char)
    (he : rbErr (renderBody env st) = some e) :
    (render env st).1.errorlog = st.errorlog ++ [e] ∧
    (render env st).1.session = none ∧
    REv.reportError e ∈ (render env st).2 ∧
    REv.errorSet e ∈ (render env st).2 := by
  unfold render
  cases hb : renderBody env st with
  | ok p =>
    rw [hb] at he
    simp [rbErr] at he
  | error p =>
    obtain ⟨e', st', evs⟩ := p
    rw [hb] at he
    simp [rbErr] at he
    subst he
    have hlog := renderBody_error_facts env st e' st' evs hb
    simp [renderHandler, hlog]

theorem vu_create_error_handled (env : VEnv) (st : VState) (ch : Option Changes)
    (hnone : st.session = none) (hthrow : (env.createThrows || env.startThrows) = true) :
    view_update_lux env st ch =
      .ok ({ st with session := none, errorlog := st.errorlog ++ [vuErrMsg] },
           [VEv.updateStats "Creating Render Session...".data [],
            VEv.updateStats "Error: ".data vuErrMsg]) := by
  simp [view_update_lux, hnone, hthrow]

theorem vd_error_handled (env : VEnv) (st : VState) (e : List Char)
    (hses : st.session = some ())
    (he : vbErr (viewDrawBody env st) = some e) :
    (view_draw env st).1.session = none ∧
    VEv.updateStats "Error: ".data e ∈ (view_draw env st).2 ∧
    (view_draw env st).1.errorlog = st.errorlog := by
  unfold view_draw
  rw [hses]
  cases hb : viewDrawBody env st with
  | ok p =>
    rw [hb] at he
    simp [vbErr] at he
  | error p =>
    obtain ⟨e', st', evs⟩ := p
    rw [hb] at he
    simp [vbErr] at he
    subst he
    have hlog := viewDrawBody_error_facts env st e' st' evs hses hb
    simp [hlog]

/-- Counterexample to C3 as stated: when `session.UpdateStats()` raises
inside `view_draw`, the error is caught and the render aborted (the handle
is cleared), but nothing is added to `scene.luxcore.errorlog` — so not
every caught error is added to the in-scene error log. -/
theorem view_draw_error_not_logged :
    vbOk (viewDrawBody envCx stCx) = false ∧
    (view_draw envCx stCx).1.session = none ∧
    (view_draw envCx stCx).1.errorlog = stCx.errorlog := by decide

/-- An exception raised by `DefineBlenderMesh` while converting an object is
caught by `convert`'s own handler: a warning is appended to the errorlog and
the object is skipped (empty props, no exported object); nothing aborts. -/
theorem convert_error_handled (ext : ConvertExt) (obj : BObject) (scene : BScene)
    (context : Bool) (dupli : List Char) (eo : Option ExportedObject) (mesh : MeshData)
    (hvis : is_obj_visible obj scene context (!dupli.isEmpty) = true)
    (hdup : (obj.is_duplicator && !is_duplicator_visible obj) = false)
    (hlamp : (obj.db.type == some "LAMP".data) = false)
    (hdata : obj.hasData = true)
    (hmesh : ext.to_mesh obj = some mesh)
    (hfaces : (mesh.tessfacesCount == 0) = false)
    (hthrow : ext.defineMeshThrows = true) :
    convert ext obj scene context eo true dupli =
      ([], none, [ExpWarning.objError obj.db.name]) := by
  simp [convert, hvis, hdup, hlamp, hdata, hmesh, hfaces, hthrow]

/-- C3 (amended): errors from export or session operations are caught, but
only the final-render handler and the viewport session-creation handler add
them to `scene.luxcore.errorlog`: (i) an exception escaping `render`'s
`try` block is reported, shown via `error_set`, appended to the errorlog and
the session handle cleared; (ii) an exception while creating the viewport
session is caught, logged and the handle cleared; (iii) an exception caught
by `view_draw`'s handler clears the handle and surfaces the message in the
UI header but leaves the errorlog unchanged; (iv) an exception while
converting one object is caught, logged as a warning, and that object is
skipped without aborting the render. -/
theorem error_handling_amended :
    (∀ (env : REnv) (st : RState) (e : List Char),
      rbErr (renderBody env st) = some e →
      (render env st).1.errorlog = st.errorlog ++ [e] ∧
      (render env st).1.session = none ∧
      REv.reportError e ∈ (render env st).2 ∧
      REv.errorSet e ∈ (render env st).2) ∧
    (∀ (env : VEnv) (st : VState) (ch : Option Changes),
      st.session = none → (env.createThrows || env.startThrows) = true →
      view_update_lux env st ch =
        .ok ({ st with session := none, errorlog := st.errorlog ++ [vuErrMsg] },
             [VEv.updateStats "Creating Render Session...".data [],
              VEv.updateStats "Error: ".data vuErrMsg])) ∧
    (∀ (env : VEnv) (st : VState) (e : List Char),
      st.session = some () → vbErr (viewDrawBody env st) = some e →
      (view_draw env st).1.session = none ∧
      VEv.updateStats "Error: ".data e ∈ (view_draw env st).2 ∧
      (view_draw env st).1.errorlog = st.errorlog) ∧
    (∀ (ext : ConvertExt) (obj : BObject) (scene : BScene) (context : Bool)
       (dupli : List Char) (eo : Option ExportedObject) (mesh : MeshData),
      is_obj_visible obj scene context (!dupli.isEmpty) = true →
      (obj.is_duplicator && !is_duplicator_visible obj) = false →
      (obj.db.type == some "LAMP".data) = false →
      obj.hasData = true →
      ext.to_mesh obj = some mesh →
      (mesh.tessfacesCount == 0) = false →
      ext.defineMeshThrows = true →
      convert ext obj scene context eo true dupli =
        ([], none, [ExpWarning.objError obj.db.name])) :=
  ⟨render_error_handled, vu_create_error_handled, vd_error_handled,
   fun ext obj scene context dupli eo mesh h1 h2 h3 h4 h5 h6 h7 =>
     convert_error_handled ext obj scene context dupli eo mesh h1 h2 h3 h4 h5 h6 h7⟩

/-- Witness for the amended C3: a concrete render whose `Start` call raises;
the message is appended to the errorlog, reported, and the handle cleared. -/
theorem error_handling_amended_witness :
    rbErr (renderBody envE stW) = some (siteMsg RSite.start) ∧
    ((render envE stW).1.errorlog = stW.errorlog ++ [siteMsg RSite.start] ∧
     (render envE stW).1.session = none ∧
     REv.reportError (siteMsg RSite.start) ∈ (render envE stW).2 ∧
     REv.errorSet (siteMsg RSite.start) ∈ (render envE stW).2) :=
  ⟨by decide, error_handling_amended.1 envE stW (siteMsg RSite.start) (by decide)⟩
